import Mathlib

/-
  Verification development for the nearest-neighbor resize converter family
  (aten::upsample_nearest1d / 2d / 3d) of the operator-conversion engine in
  src/core/conversion/converters/impl/interpolate.cpp.

  The embedding models the backend network builder as an explicit state
  (a list of layers plus the value/tensor association table), the three
  converters as pure functions from (context, node, resolved operands) to
  Except-results, and the shape utilities from the spec (their source lives
  in core/util, outside src/).
-/

/-- Maximum rank supported by the backend native dimension type
    (nvinfer1::Dims::MAX_DIMS). -/
def MAX_DIMS : Nat := 8

/-- A native backend shape (nvinfer1::Dims): an ordered sequence of
    dimension values. -/
structure Dims where
  d : List Int
deriving DecidableEq

/-- A native shape is valid when its rank does not exceed the backend
    maximum supported rank. -/
abbrev Dims.valid (x : Dims) : Prop := x.d.length ≤ MAX_DIMS

/-- Modelled from the spec: util::toVec (core/util, not under src/), the
    lossless order-preserving conversion from a native shape to an ordered
    integer sequence (spec section 4.1). -/
def toVec (x : Dims) : List Int := x.d

/-- Modelled from the spec: util::toDims (core/util, not under src/), the
    reverse conversion; violating the rank domain (more than MAX_DIMS
    values) is a programming-error-level fault, asserted and not recovered
    (spec section 4.1), embedded here as the none branch. -/
def toDims (v : List Int) : Option Dims := if v.length ≤ MAX_DIMS then some ⟨v⟩ else none

/-- Modelled from the spec: util::toStr (core/util, not under src/),
    diagnostic rendering of a native shape, used only in layer names. -/
def toStr (x : Dims) : String := toString x.d

/-- A backend tensor handle (nvinfer1::ITensor): an identity plus the
    declared dimensions reported by getDimensions(). -/
structure Tensor where
  id : Nat
  dims : Dims
deriving DecidableEq

/-- The resize (interpolation) algorithm enumerator; only nearest-neighbor
    is exercised by this converter family. -/
inductive ResizeMode where
  | kNEAREST
deriving DecidableEq

/-- A native layer recorded in the backend network builder: either a
    shuffle (reshape) layer with its reshape dimensions and name, or a
    resize layer with its output dimensions, mode and name. -/
inductive Layer where
  | shuffle (input : Tensor) (reshapeDims : Dims) (name : String)
  | resize (input : Tensor) (outputDims : Dims) (mode : ResizeMode) (name : String)
deriving DecidableEq

/-- Whether a layer is a shuffle (reshape) layer. -/
def Layer.isShuffle : Layer → Bool
  | .shuffle _ _ _ => true
  | .resize _ _ _ _ => false

/-- The Conversion Context: owns the backend network builder (the list of
    layers created so far, plus a counter generating fresh tensor ids) and
    the association table from IR output values to backend tensors. -/
structure ConversionCtx where
  layers : List Layer
  assocs : List (Nat × Tensor)
  nextId : Nat
deriving DecidableEq

/-- ctx->net->addShuffle(*in) followed by setReshapeDimensions and setName:
    appends a shuffle layer and returns the updated context together with
    the output tensor of the layer (getOutput(0)), whose declared dimensions are
    the reshape dimensions. -/
def ConversionCtx.addShuffle (ctx : ConversionCtx) (input : Tensor) (rd : Dims)
    (nm : String) : ConversionCtx × Tensor :=
  ({ layers := ctx.layers ++ [Layer.shuffle input rd nm],
     assocs := ctx.assocs,
     nextId := ctx.nextId + 1 },
   ⟨ctx.nextId, rd⟩)

/-- ctx->net->addResize(*in) followed by setOutputDimensions, setResizeMode
    and setName: appends a resize layer and returns the updated context
    together with the output tensor of the layer (getOutput(0)), whose declared
    dimensions are the target output dimensions.  Layer creation by the
    backend is modelled as always succeeding (the TRTORCH_CHECK null-handle
    path is a backend failure external to this core). -/
def ConversionCtx.addResize (ctx : ConversionCtx) (input : Tensor) (od : Dims)
    (mode : ResizeMode) (nm : String) : ConversionCtx × Tensor :=
  ({ layers := ctx.layers ++ [Layer.resize input od mode nm],
     assocs := ctx.assocs,
     nextId := ctx.nextId + 1 },
   ⟨ctx.nextId, od⟩)

/-- ctx->AssociateValueAndTensor(value, tensor): records the association
    and returns the tensor unchanged. -/
def ConversionCtx.associate (ctx : ConversionCtx) (v : Nat) (t : Tensor) :
    ConversionCtx × Tensor :=
  ({ ctx with assocs := ctx.assocs ++ [(v, t)] }, t)

/-- An IR operator node as the converters see it: its diagnostic info
    string (util::node_info(n)) and its sole output value (n->outputs()[0],
    guaranteed by the registered schema, which declares one Tensor output). -/
structure Node where
  info : String
  output0 : Nat
deriving DecidableEq

/-- Fatal conversion faults: a TRTORCH_ASSERT / TRTORCH_CHECK with its
    message; a toDims rank-domain fault carrying the offending length
    (modelled from spec section 4.1); and the out-of-range branch of the
    total embedding of std::copy (undefined behavior in the source). -/
inductive ConvError where
  | fatal (msg : String)
  | dimsDomain (k : Nat)
  | copyOutOfRange
deriving DecidableEq

/-- Total embedding of std::copy(src.begin(), src.end(), dst.begin() + off)
    on a value copy of dst: in range, overwrite src.length entries of dst
    starting at offset off; out of range, take the distinguished branch
    (undefined behavior in the source). -/
def copyInto (dst src : List Int) (off : Nat) : Option (List Int) :=
  if off + src.length ≤ dst.length then
    some (dst.take off ++ src ++ dst.drop (off + src.length))
  else
    none

/-- The aten::upsample_nearest1d converter (interpolate.cpp lines 16-77).
    Operands: args[0] the input tensor, args[1] the optional output_size
    int list, args[2] the optional scales float (only its presence is ever
    inspected, so it is embedded as Option Unit). -/
def upsample_nearest1d (ctx : ConversionCtx) (n : Node) (a0 : Tensor)
    (a1 : Option (List Int)) (a2 : Option Unit) :
    Except ConvError (ConversionCtx × Bool) :=
  let in_shape0 := toVec a0.dims
  -- remove padding that TensorRt adds automatically
  let step1 : Except ConvError (ConversionCtx × Tensor × List Int) :=
    if 4 ≤ in_shape0.length then
      -- remove first dimension
      let in_shape := in_shape0.drop 1
      match toDims in_shape with
      | none => Except.error (ConvError.dimsDomain in_shape.length)
      | some rd =>
        let p := ctx.addShuffle a0 rd (n.info ++ " [Reshape to " ++ toStr rd ++ "]")
        Except.ok (p.1, p.2, in_shape)
    else
      Except.ok (ctx, a0, in_shape0)
  match step1 with
  | Except.error e => Except.error e
  | Except.ok (ctx1, in1, in_shape) =>
    -- Case 1: user uses output size and not scales
    match a1, a2 with
    | some osList, none =>
      match toDims osList with
      | none => Except.error (ConvError.dimsDomain osList.length)
      | some osd =>
        let out_size := toVec osd
        if out_size.length = 1 then
          match copyInto in_shape out_size (in_shape.length - out_size.length) with
          | none => Except.error ConvError.copyOutOfRange
          | some out_shape =>
            match toDims out_shape with
            | none => Except.error (ConvError.dimsDomain out_shape.length)
            | some od =>
              let q := ctx1.addResize in1 od ResizeMode.kNEAREST n.info
              let r := q.1.associate n.output0 q.2
              Except.ok (r.1, true)
        else
          Except.error (ConvError.fatal
            "aten::upsample_nearest1d input Tensor and output size dimension mismatch")
    | _, _ =>
      -- scale factor parameter not supported yet
      Except.ok (ctx1, true)

/-- The aten::upsample_nearest2d converter (interpolate.cpp lines 79-107).
    Operands: args[0] the input tensor, args[1] the optional output_size
    int list, args[2] and args[3] the optional scales_h / scales_w floats. -/
def upsample_nearest2d (ctx : ConversionCtx) (n : Node) (a0 : Tensor)
    (a1 : Option (List Int)) (a2 a3 : Option Unit) :
    Except ConvError (ConversionCtx × Bool) :=
  let in_shape := toVec a0.dims
  -- Case 1: user uses output_size and not scales_h, scales_w
  match a1, a2, a3 with
  | some osList, none, none =>
    match toDims osList with
    | none => Except.error (ConvError.dimsDomain osList.length)
    | some osd =>
      let out_size := toVec osd
      if out_size.length = 2 then
        match copyInto in_shape out_size (in_shape.length - out_size.length) with
        | none => Except.error ConvError.copyOutOfRange
        | some out_shape =>
          match toDims out_shape with
          | none => Except.error (ConvError.dimsDomain out_shape.length)
          | some od =>
            let q := ctx.addResize a0 od ResizeMode.kNEAREST n.info
            let r := q.1.associate n.output0 q.2
            Except.ok (r.1, true)
      else
        Except.error (ConvError.fatal
          "aten::upsample_nearest2d input Tensor and output size dimension mismatch")
  | _, _, _ =>
    -- scale factor parameters not supported yet
    Except.ok (ctx, true)

/-- The aten::upsample_nearest3d converter (interpolate.cpp lines 109-137).
    Operands: args[0] the input tensor, args[1] the optional output_size
    int list, args[2], args[3] and args[4] the optional scales_d /
    scales_h / scales_w floats. -/
def upsample_nearest3d (ctx : ConversionCtx) (n : Node) (a0 : Tensor)
    (a1 : Option (List Int)) (a2 a3 a4 : Option Unit) :
    Except ConvError (ConversionCtx × Bool) :=
  let in_shape := toVec a0.dims
  -- Case 1: user uses output size and not scales_d, scales_h, scales_w
  match a1, a2, a3, a4 with
  | some osList, none, none, none =>
    match toDims osList with
    | none => Except.error (ConvError.dimsDomain osList.length)
    | some osd =>
      let out_size := toVec osd
      if out_size.length = 3 then
        match copyInto in_shape out_size (in_shape.length - out_size.length) with
        | none => Except.error ConvError.copyOutOfRange
        | some out_shape =>
          match toDims out_shape with
          | none => Except.error (ConvError.dimsDomain out_shape.length)
          | some od =>
            let q := ctx.addResize a0 od ResizeMode.kNEAREST n.info
            let r := q.1.associate n.output0 q.2
            Except.ok (r.1, true)
      else
        Except.error (ConvError.fatal
          "aten::upsample_nearest3d input Tensor and output size dimension mismatch")
  | _, _, _, _ =>
    -- scale factor parameters not supported yet
    Except.ok (ctx, true)

/-- The declared shape of the tensor most recently associated with IR value
    v in a completed conversion result, if any. -/
def declaredOutput (r : Except ConvError (ConversionCtx × Bool)) (v : Nat) :
    Option (List Int) :=
  match r with
  | Except.error _ => none
  | Except.ok (c, _) =>
    (c.assocs.reverse.find? (fun a => a.1 = v)).map (fun a => toVec a.2.dims)

/-- An empty conversion context, as at the start of a lowering pass. -/
def ctx0 : ConversionCtx := ⟨[], [], 0⟩

/-- A sample node for concrete executions. -/
def n0 : Node := ⟨"%3 : Tensor = aten::upsample_nearest", 0⟩

example : declaredOutput (upsample_nearest2d ctx0 n0 ⟨0, ⟨[1, 3, 32, 32]⟩⟩
    (some [64, 64]) none none) 0 = some [1, 3, 64, 64] := by decide

example : declaredOutput (upsample_nearest1d ctx0 n0 ⟨0, ⟨[2, 3, 8]⟩⟩
    (some [16]) none) 0 = some [2, 3, 16] := by decide

example : declaredOutput (upsample_nearest3d ctx0 n0 ⟨0, ⟨[1, 3, 4, 8, 8]⟩⟩
    (some [4, 16, 16]) none none none) 0 = some [1, 3, 4, 16, 16] := by decide

example : declaredOutput (upsample_nearest1d ctx0 n0 ⟨0, ⟨[1, 2, 3, 8]⟩⟩
    (some [16]) none) 0 = some [2, 3, 16] := by decide

/-! ### Basic lemmas about the shape utilities -/

theorem toDims_of_le (v : List Int) (h : v.length ≤ MAX_DIMS) : toDims v = some ⟨v⟩ := by
  simp [toDims, h]

theorem copyInto_last_eq (dst src : List Int) :
    copyInto dst src (dst.length - src.length) =
      if src.length ≤ dst.length then
        some (dst.take (dst.length - src.length) ++ src)
      else none := by
  unfold copyInto
  by_cases h : src.length ≤ dst.length
  · rw [if_pos (by omega), if_pos h, Nat.sub_add_cancel h, List.drop_length,
      List.append_nil]
  · rw [if_neg (by omega), if_neg h]

theorem length_take_append (s l : List Int) (h : l.length ≤ s.length) :
    (s.take (s.length - l.length) ++ l).length = s.length := by
  simp only [List.length_append, List.length_take]
  omega

/-! ### Evaluation lemmas for the converters -/

theorem up2d_eval (ctx : ConversionCtx) (n : Node) (t : Tensor) (l : List Int)
    (h8 : t.dims.d.length ≤ MAX_DIMS) (hl : l.length = 2)
    (hr : 2 ≤ t.dims.d.length) :
    upsample_nearest2d ctx n t (some l) none none =
      Except.ok
        ({ layers := ctx.layers ++
             [Layer.resize t ⟨t.dims.d.take (t.dims.d.length - l.length) ++ l⟩
               ResizeMode.kNEAREST n.info],
           assocs := ctx.assocs ++
             [(n.output0,
               ⟨ctx.nextId, ⟨t.dims.d.take (t.dims.d.length - l.length) ++ l⟩⟩)],
           nextId := ctx.nextId + 1 }, true) := by
  unfold upsample_nearest2d
  dsimp only
  rw [toDims_of_le l (by omega)]
  dsimp only [toVec]
  rw [if_pos hl]
  rw [copyInto_last_eq t.dims.d l]
  rw [if_pos (show l.length ≤ t.dims.d.length by omega)]
  dsimp only
  rw [toDims_of_le _ (by
    rw [length_take_append t.dims.d l (by omega)]; exact h8)]
  rfl

theorem up3d_eval (ctx : ConversionCtx) (n : Node) (t : Tensor) (l : List Int)
    (h8 : t.dims.d.length ≤ MAX_DIMS) (hl : l.length = 3)
    (hr : 3 ≤ t.dims.d.length) :
    upsample_nearest3d ctx n t (some l) none none none =
      Except.ok
        ({ layers := ctx.layers ++
             [Layer.resize t ⟨t.dims.d.take (t.dims.d.length - l.length) ++ l⟩
               ResizeMode.kNEAREST n.info],
           assocs := ctx.assocs ++
             [(n.output0,
               ⟨ctx.nextId, ⟨t.dims.d.take (t.dims.d.length - l.length) ++ l⟩⟩)],
           nextId := ctx.nextId + 1 }, true) := by
  unfold upsample_nearest3d
  dsimp only
  rw [toDims_of_le l (by omega)]
  dsimp only [toVec]
  rw [if_pos hl]
  rw [copyInto_last_eq t.dims.d l]
  rw [if_pos (show l.length ≤ t.dims.d.length by omega)]
  dsimp only
  rw [toDims_of_le _ (by rw [length_take_append t.dims.d l (by omega)]; exact h8)]
  rfl

theorem up1d_eval_lt4 (ctx : ConversionCtx) (n : Node) (t : Tensor) (l : List Int)
    (hr1 : 1 ≤ t.dims.d.length) (hr4 : t.dims.d.length < 4) (hl : l.length = 1) :
    upsample_nearest1d ctx n t (some l) none =
      Except.ok
        ({ layers := ctx.layers ++
             [Layer.resize t ⟨t.dims.d.take (t.dims.d.length - l.length) ++ l⟩
               ResizeMode.kNEAREST n.info],
           assocs := ctx.assocs ++
             [(n.output0,
               ⟨ctx.nextId, ⟨t.dims.d.take (t.dims.d.length - l.length) ++ l⟩⟩)],
           nextId := ctx.nextId + 1 }, true) := by
  unfold upsample_nearest1d
  dsimp only [toVec]
  rw [if_neg (show ¬ 4 ≤ t.dims.d.length by omega)]
  dsimp only
  rw [toDims_of_le l (by simp only [MAX_DIMS]; omega)]
  dsimp only [toVec]
  rw [if_pos hl]
  rw [copyInto_last_eq t.dims.d l]
  rw [if_pos (show l.length ≤ t.dims.d.length by omega)]
  dsimp only
  rw [toDims_of_le _ (by
    rw [length_take_append t.dims.d l (by omega)]
    simp only [MAX_DIMS]
    omega)]
  rfl

theorem up1d_eval_ge4 (ctx : ConversionCtx) (n : Node) (t : Tensor) (l : List Int)
    (h9 : t.dims.d.length - 1 ≤ MAX_DIMS) (hr : 4 ≤ t.dims.d.length) (hl : l.length = 1) :
    upsample_nearest1d ctx n t (some l) none =
      Except.ok
        ({ layers := (ctx.layers ++
             [Layer.shuffle t ⟨t.dims.d.drop 1⟩
               (n.info ++ " [Reshape to " ++ toStr ⟨t.dims.d.drop 1⟩ ++ "]")]) ++
             [Layer.resize ⟨ctx.nextId, ⟨t.dims.d.drop 1⟩⟩
               ⟨(t.dims.d.drop 1).take ((t.dims.d.drop 1).length - l.length) ++ l⟩
               ResizeMode.kNEAREST n.info],
           assocs := ctx.assocs ++
             [(n.output0,
               ⟨ctx.nextId + 1,
                ⟨(t.dims.d.drop 1).take ((t.dims.d.drop 1).length - l.length) ++ l⟩⟩)],
           nextId := ctx.nextId + 1 + 1 }, true) := by
  unfold upsample_nearest1d
  dsimp only [toVec]
  rw [if_pos hr]
  rw [toDims_of_le (t.dims.d.drop 1) (by rw [List.length_drop]; omega)]
  dsimp only [ConversionCtx.addShuffle]
  rw [toDims_of_le l (by omega)]
  dsimp only [toVec]
  rw [if_pos hl]
  rw [copyInto_last_eq (t.dims.d.drop 1) l]
  rw [if_pos (show l.length ≤ (t.dims.d.drop 1).length by rw [List.length_drop]; omega)]
  dsimp only
  rw [toDims_of_le _ (by
    rw [length_take_append (t.dims.d.drop 1) l
      (by rw [List.length_drop]; omega)]
    rw [List.length_drop]
    omega)]
  rfl

theorem up2d_skip (ctx : ConversionCtx) (n : Node) (t : Tensor)
    (a1 : Option (List Int)) (a2 a3 : Option Unit)
    (h : a1 = none ∨ a2 = some () ∨ a3 = some ()) :
    upsample_nearest2d ctx n t a1 a2 a3 = Except.ok (ctx, true) := by
  rcases h with h | h | h
  · subst h; cases a2 <;> cases a3 <;> rfl
  · subst h; cases a1 <;> cases a3 <;> rfl
  · subst h; cases a1 <;> cases a2 <;> rfl

theorem up3d_skip (ctx : ConversionCtx) (n : Node) (t : Tensor)
    (a1 : Option (List Int)) (a2 a3 a4 : Option Unit)
    (h : a1 = none ∨ a2 = some () ∨ a3 = some () ∨ a4 = some ()) :
    upsample_nearest3d ctx n t a1 a2 a3 a4 = Except.ok (ctx, true) := by
  rcases h with h | h | h | h
  · subst h; cases a2 <;> cases a3 <;> cases a4 <;> rfl
  · subst h; cases a1 <;> cases a3 <;> cases a4 <;> rfl
  · subst h; cases a1 <;> cases a2 <;> cases a4 <;> rfl
  · subst h; cases a1 <;> cases a2 <;> cases a3 <;> rfl

theorem up1d_skip_lt4 (ctx : ConversionCtx) (n : Node) (t : Tensor)
    (a1 : Option (List Int)) (a2 : Option Unit)
    (hr : t.dims.d.length < 4) (h : a1 = none ∨ a2 = some ()) :
    upsample_nearest1d ctx n t a1 a2 = Except.ok (ctx, true) := by
  unfold upsample_nearest1d
  dsimp only [toVec]
  rw [if_neg (show ¬ 4 ≤ t.dims.d.length by omega)]
  rcases h with h | h
  · subst h; cases a2 <;> rfl
  · subst h; cases a1 <;> rfl

theorem up1d_skip_ge4 (ctx : ConversionCtx) (n : Node) (t : Tensor)
    (a1 : Option (List Int)) (a2 : Option Unit)
    (h9 : t.dims.d.length - 1 ≤ MAX_DIMS) (hr : 4 ≤ t.dims.d.length)
    (h : a1 = none ∨ a2 = some ()) :
    upsample_nearest1d ctx n t a1 a2 =
      Except.ok
        ({ layers := ctx.layers ++
             [Layer.shuffle t ⟨t.dims.d.drop 1⟩
               (n.info ++ " [Reshape to " ++ toStr ⟨t.dims.d.drop 1⟩ ++ "]")],
           assocs := ctx.assocs,
           nextId := ctx.nextId + 1 }, true) := by
  unfold upsample_nearest1d
  dsimp only [toVec]
  rw [if_pos hr]
  rw [toDims_of_le (t.dims.d.drop 1) (by rw [List.length_drop]; omega)]
  dsimp only [ConversionCtx.addShuffle]
  rcases h with h | h
  · subst h; cases a2 <;> rfl
  · subst h; cases a1 <;> rfl

/-! ### Error-branch lemmas -/

theorem toDims_of_gt (v : List Int) (h : MAX_DIMS < v.length) : toDims v = none := by
  unfold toDims
  rw [if_neg (by omega)]

theorem up2d_err_osdim (ctx : ConversionCtx) (n : Node) (t : Tensor) (l : List Int)
    (h : MAX_DIMS < l.length) :
    upsample_nearest2d ctx n t (some l) none none =
      Except.error (ConvError.dimsDomain l.length) := by
  unfold upsample_nearest2d
  dsimp only
  rw [toDims_of_gt l h]

theorem up2d_err_assert (ctx : ConversionCtx) (n : Node) (t : Tensor) (l : List Int)
    (h8 : l.length ≤ MAX_DIMS) (hne : l.length ≠ 2) :
    upsample_nearest2d ctx n t (some l) none none =
      Except.error (ConvError.fatal
        "aten::upsample_nearest2d input Tensor and output size dimension mismatch") := by
  unfold upsample_nearest2d
  dsimp only
  rw [toDims_of_le l h8]
  dsimp only [toVec]
  rw [if_neg hne]

theorem up2d_err_oob (ctx : ConversionCtx) (n : Node) (t : Tensor) (l : List Int)
    (hl : l.length = 2) (h : t.dims.d.length < l.length) :
    upsample_nearest2d ctx n t (some l) none none =
      Except.error ConvError.copyOutOfRange := by
  unfold upsample_nearest2d
  dsimp only
  rw [toDims_of_le l (by simp only [MAX_DIMS]; omega)]
  dsimp only [toVec]
  rw [if_pos hl]
  rw [copyInto_last_eq t.dims.d l]
  rw [if_neg (by omega)]

theorem up2d_err_outdim (ctx : ConversionCtx) (n : Node) (t : Tensor) (l : List Int)
    (hl : l.length = 2) (hle : l.length ≤ t.dims.d.length)
    (h : MAX_DIMS < t.dims.d.length) :
    upsample_nearest2d ctx n t (some l) none none =
      Except.error (ConvError.dimsDomain t.dims.d.length) := by
  unfold upsample_nearest2d
  dsimp only
  rw [toDims_of_le l (by simp only [MAX_DIMS]; omega)]
  dsimp only [toVec]
  rw [if_pos hl]
  rw [copyInto_last_eq t.dims.d l]
  rw [if_pos hle]
  dsimp only
  rw [toDims_of_gt _ (by rw [length_take_append t.dims.d l hle]; exact h)]
  rw [length_take_append t.dims.d l hle]

theorem up3d_err_osdim (ctx : ConversionCtx) (n : Node) (t : Tensor) (l : List Int)
    (h : MAX_DIMS < l.length) :
    upsample_nearest3d ctx n t (some l) none none none =
      Except.error (ConvError.dimsDomain l.length) := by
  unfold upsample_nearest3d
  dsimp only
  rw [toDims_of_gt l h]

theorem up3d_err_assert (ctx : ConversionCtx) (n : Node) (t : Tensor) (l : List Int)
    (h8 : l.length ≤ MAX_DIMS) (hne : l.length ≠ 3) :
    upsample_nearest3d ctx n t (some l) none none none =
      Except.error (ConvError.fatal
        "aten::upsample_nearest3d input Tensor and output size dimension mismatch") := by
  unfold upsample_nearest3d
  dsimp only
  rw [toDims_of_le l h8]
  dsimp only [toVec]
  rw [if_neg hne]

theorem up3d_err_oob (ctx : ConversionCtx) (n : Node) (t : Tensor) (l : List Int)
    (hl : l.length = 3) (h : t.dims.d.length < l.length) :
    upsample_nearest3d ctx n t (some l) none none none =
      Except.error ConvError.copyOutOfRange := by
  unfold upsample_nearest3d
  dsimp only
  rw [toDims_of_le l (by simp only [MAX_DIMS]; omega)]
  dsimp only [toVec]
  rw [if_pos hl]
  rw [copyInto_last_eq t.dims.d l]
  rw [if_neg (by omega)]

theorem up3d_err_outdim (ctx : ConversionCtx) (n : Node) (t : Tensor) (l : List Int)
    (hl : l.length = 3) (hle : l.length ≤ t.dims.d.length)
    (h : MAX_DIMS < t.dims.d.length) :
    upsample_nearest3d ctx n t (some l) none none none =
      Except.error (ConvError.dimsDomain t.dims.d.length) := by
  unfold upsample_nearest3d
  dsimp only
  rw [toDims_of_le l (by simp only [MAX_DIMS]; omega)]
  dsimp only [toVec]
  rw [if_pos hl]
  rw [copyInto_last_eq t.dims.d l]
  rw [if_pos hle]
  dsimp only
  rw [toDims_of_gt _ (by rw [length_take_append t.dims.d l hle]; exact h)]
  rw [length_take_append t.dims.d l hle]

theorem up1d_err_step1 (ctx : ConversionCtx) (n : Node) (t : Tensor)
    (a1 : Option (List Int)) (a2 : Option Unit)
    (hr : 4 ≤ t.dims.d.length) (h : MAX_DIMS < t.dims.d.length - 1) :
    upsample_nearest1d ctx n t a1 a2 =
      Except.error (ConvError.dimsDomain (t.dims.d.length - 1)) := by
  unfold upsample_nearest1d
  dsimp only [toVec]
  rw [if_pos hr]
  rw [toDims_of_gt (t.dims.d.drop 1) (by rw [List.length_drop]; omega)]
  dsimp only
  rw [List.length_drop]

theorem up1d_lt4_err_osdim (ctx : ConversionCtx) (n : Node) (t : Tensor) (l : List Int)
    (hr4 : t.dims.d.length < 4) (h : MAX_DIMS < l.length) :
    upsample_nearest1d ctx n t (some l) none =
      Except.error (ConvError.dimsDomain l.length) := by
  unfold upsample_nearest1d
  dsimp only [toVec]
  rw [if_neg (show ¬ 4 ≤ t.dims.d.length by omega)]
  dsimp only
  rw [toDims_of_gt l h]

theorem up1d_ge4_err_osdim (ctx : ConversionCtx) (n : Node) (t : Tensor) (l : List Int)
    (hr : 4 ≤ t.dims.d.length) (h9 : t.dims.d.length - 1 ≤ MAX_DIMS)
    (h : MAX_DIMS < l.length) :
    upsample_nearest1d ctx n t (some l) none =
      Except.error (ConvError.dimsDomain l.length) := by
  unfold upsample_nearest1d
  dsimp only [toVec]
  rw [if_pos hr]
  rw [toDims_of_le (t.dims.d.drop 1) (by rw [List.length_drop]; omega)]
  dsimp only [ConversionCtx.addShuffle]
  rw [toDims_of_gt l h]

theorem up1d_lt4_err_assert (ctx : ConversionCtx) (n : Node) (t : Tensor) (l : List Int)
    (hr4 : t.dims.d.length < 4) (h8 : l.length ≤ MAX_DIMS) (hne : l.length ≠ 1) :
    upsample_nearest1d ctx n t (some l) none =
      Except.error (ConvError.fatal
        "aten::upsample_nearest1d input Tensor and output size dimension mismatch") := by
  unfold upsample_nearest1d
  dsimp only [toVec]
  rw [if_neg (show ¬ 4 ≤ t.dims.d.length by omega)]
  dsimp only
  rw [toDims_of_le l h8]
  dsimp only [toVec]
  rw [if_neg hne]

theorem up1d_ge4_err_assert (ctx : ConversionCtx) (n : Node) (t : Tensor) (l : List Int)
    (hr : 4 ≤ t.dims.d.length) (h9 : t.dims.d.length - 1 ≤ MAX_DIMS)
    (h8 : l.length ≤ MAX_DIMS) (hne : l.length ≠ 1) :
    upsample_nearest1d ctx n t (some l) none =
      Except.error (ConvError.fatal
        "aten::upsample_nearest1d input Tensor and output size dimension mismatch") := by
  unfold upsample_nearest1d
  dsimp only [toVec]
  rw [if_pos hr]
  rw [toDims_of_le (t.dims.d.drop 1) (by rw [List.length_drop]; omega)]
  dsimp only [ConversionCtx.addShuffle]
  rw [toDims_of_le l h8]
  dsimp only [toVec]
  rw [if_neg hne]

theorem up1d_lt4_err_oob (ctx : ConversionCtx) (n : Node) (t : Tensor) (l : List Int)
    (hr0 : t.dims.d.length < 1) (hl : l.length = 1) :
    upsample_nearest1d ctx n t (some l) none =
      Except.error ConvError.copyOutOfRange := by
  unfold upsample_nearest1d
  dsimp only [toVec]
  rw [if_neg (show ¬ 4 ≤ t.dims.d.length by omega)]
  dsimp only
  rw [toDims_of_le l (by simp only [MAX_DIMS]; omega)]
  dsimp only [toVec]
  rw [if_pos hl]
  rw [copyInto_last_eq t.dims.d l]
  rw [if_neg (by omega)]

/-! ### Complete run characterizations -/

theorem up2d_runs (ctx : ConversionCtx) (n : Node) (t : Tensor)
    (a1 : Option (List Int)) (a2 a3 : Option Unit) :
    ((a1 = none ∨ a2 = some () ∨ a3 = some ()) ∧
      upsample_nearest2d ctx n t a1 a2 a3 = Except.ok (ctx, true))
    ∨ (∃ l, a1 = some l ∧ a2 = none ∧ a3 = none ∧
        ((MAX_DIMS < l.length ∧
           upsample_nearest2d ctx n t a1 a2 a3 =
             Except.error (ConvError.dimsDomain l.length))
         ∨ (l.length ≤ MAX_DIMS ∧ l.length ≠ 2 ∧
           upsample_nearest2d ctx n t a1 a2 a3 =
             Except.error (ConvError.fatal
               "aten::upsample_nearest2d input Tensor and output size dimension mismatch"))
         ∨ (l.length = 2 ∧ t.dims.d.length < l.length ∧
           upsample_nearest2d ctx n t a1 a2 a3 =
             Except.error ConvError.copyOutOfRange)
         ∨ (l.length = 2 ∧ l.length ≤ t.dims.d.length ∧ MAX_DIMS < t.dims.d.length ∧
           upsample_nearest2d ctx n t a1 a2 a3 =
             Except.error (ConvError.dimsDomain t.dims.d.length))
         ∨ (l.length = 2 ∧ l.length ≤ t.dims.d.length ∧ t.dims.d.length ≤ MAX_DIMS ∧
           upsample_nearest2d ctx n t a1 a2 a3 =
             Except.ok
               ({ layers := ctx.layers ++
                    [Layer.resize t ⟨t.dims.d.take (t.dims.d.length - l.length) ++ l⟩
                      ResizeMode.kNEAREST n.info],
                  assocs := ctx.assocs ++
                    [(n.output0,
                      ⟨ctx.nextId, ⟨t.dims.d.take (t.dims.d.length - l.length) ++ l⟩⟩)],
                  nextId := ctx.nextId + 1 }, true)))) := by
  rcases a1 with _ | l
  · exact Or.inl ⟨Or.inl rfl, up2d_skip _ _ _ _ _ _ (Or.inl rfl)⟩
  · rcases a2 with _ | u
    · rcases a3 with _ | u
      · right
        refine ⟨l, rfl, rfl, rfl, ?_⟩
        by_cases h1 : MAX_DIMS < l.length
        · exact Or.inl ⟨h1, up2d_err_osdim _ _ _ _ h1⟩
        · by_cases h2 : l.length = 2
          · by_cases h3 : t.dims.d.length < l.length
            · exact Or.inr (Or.inr (Or.inl ⟨h2, h3, up2d_err_oob _ _ _ _ h2 h3⟩))
            · by_cases h4 : MAX_DIMS < t.dims.d.length
              · exact Or.inr (Or.inr (Or.inr (Or.inl
                  ⟨h2, by omega, h4, up2d_err_outdim _ _ _ _ h2 (by omega) h4⟩)))
              · exact Or.inr (Or.inr (Or.inr (Or.inr
                  ⟨h2, by omega, by omega, up2d_eval _ _ _ _ (by omega) h2 (by omega)⟩)))
          · exact Or.inr (Or.inl ⟨by omega, h2, up2d_err_assert _ _ _ _ (by omega) h2⟩)
      · cases u
        exact Or.inl ⟨Or.inr (Or.inr rfl), up2d_skip _ _ _ _ _ _ (Or.inr (Or.inr rfl))⟩
    · cases u
      exact Or.inl ⟨Or.inr (Or.inl rfl), up2d_skip _ _ _ _ _ _ (Or.inr (Or.inl rfl))⟩

theorem up3d_runs (ctx : ConversionCtx) (n : Node) (t : Tensor)
    (a1 : Option (List Int)) (a2 a3 a4 : Option Unit) :
    ((a1 = none ∨ a2 = some () ∨ a3 = some () ∨ a4 = some ()) ∧
      upsample_nearest3d ctx n t a1 a2 a3 a4 = Except.ok (ctx, true))
    ∨ (∃ l, a1 = some l ∧ a2 = none ∧ a3 = none ∧ a4 = none ∧
        ((MAX_DIMS < l.length ∧
           upsample_nearest3d ctx n t a1 a2 a3 a4 =
             Except.error (ConvError.dimsDomain l.length))
         ∨ (l.length ≤ MAX_DIMS ∧ l.length ≠ 3 ∧
           upsample_nearest3d ctx n t a1 a2 a3 a4 =
             Except.error (ConvError.fatal
               "aten::upsample_nearest3d input Tensor and output size dimension mismatch"))
         ∨ (l.length = 3 ∧ t.dims.d.length < l.length ∧
           upsample_nearest3d ctx n t a1 a2 a3 a4 =
             Except.error ConvError.copyOutOfRange)
         ∨ (l.length = 3 ∧ l.length ≤ t.dims.d.length ∧ MAX_DIMS < t.dims.d.length ∧
           upsample_nearest3d ctx n t a1 a2 a3 a4 =
             Except.error (ConvError.dimsDomain t.dims.d.length))
         ∨ (l.length = 3 ∧ l.length ≤ t.dims.d.length ∧ t.dims.d.length ≤ MAX_DIMS ∧
           upsample_nearest3d ctx n t a1 a2 a3 a4 =
             Except.ok
               ({ layers := ctx.layers ++
                    [Layer.resize t ⟨t.dims.d.take (t.dims.d.length - l.length) ++ l⟩
                      ResizeMode.kNEAREST n.info],
                  assocs := ctx.assocs ++
                    [(n.output0,
                      ⟨ctx.nextId, ⟨t.dims.d.take (t.dims.d.length - l.length) ++ l⟩⟩)],
                  nextId := ctx.nextId + 1 }, true)))) := by
  rcases a1 with _ | l
  · exact Or.inl ⟨Or.inl rfl, up3d_skip _ _ _ _ _ _ _ (Or.inl rfl)⟩
  · rcases a2 with _ | u
    · rcases a3 with _ | u
      · rcases a4 with _ | u
        · right
          refine ⟨l, rfl, rfl, rfl, rfl, ?_⟩
          by_cases h1 : MAX_DIMS < l.length
          · exact Or.inl ⟨h1, up3d_err_osdim _ _ _ _ h1⟩
          · by_cases h2 : l.length = 3
            · by_cases h3 : t.dims.d.length < l.length
              · exact Or.inr (Or.inr (Or.inl ⟨h2, h3, up3d_err_oob _ _ _ _ h2 h3⟩))
              · by_cases h4 : MAX_DIMS < t.dims.d.length
                · exact Or.inr (Or.inr (Or.inr (Or.inl
                    ⟨h2, by omega, h4, up3d_err_outdim _ _ _ _ h2 (by omega) h4⟩)))
                · exact Or.inr (Or.inr (Or.inr (Or.inr
                    ⟨h2, by omega, by omega, up3d_eval _ _ _ _ (by omega) h2 (by omega)⟩)))
            · exact Or.inr (Or.inl ⟨by omega, h2, up3d_err_assert _ _ _ _ (by omega) h2⟩)
        · cases u
          exact Or.inl ⟨Or.inr (Or.inr (Or.inr rfl)),
            up3d_skip _ _ _ _ _ _ _ (Or.inr (Or.inr (Or.inr rfl)))⟩
      · cases u
        exact Or.inl ⟨Or.inr (Or.inr (Or.inl rfl)),
          up3d_skip _ _ _ _ _ _ _ (Or.inr (Or.inr (Or.inl rfl)))⟩
    · cases u
      exact Or.inl ⟨Or.inr (Or.inl rfl), up3d_skip _ _ _ _ _ _ _ (Or.inr (Or.inl rfl))⟩

theorem up1d_runs_lt4 (ctx : ConversionCtx) (n : Node) (t : Tensor)
    (a1 : Option (List Int)) (a2 : Option Unit) (hr4 : t.dims.d.length < 4) :
    ((a1 = none ∨ a2 = some ()) ∧
      upsample_nearest1d ctx n t a1 a2 = Except.ok (ctx, true))
    ∨ (∃ l, a1 = some l ∧ a2 = none ∧
        ((MAX_DIMS < l.length ∧
           upsample_nearest1d ctx n t a1 a2 =
             Except.error (ConvError.dimsDomain l.length))
         ∨ (l.length ≤ MAX_DIMS ∧ l.length ≠ 1 ∧
           upsample_nearest1d ctx n t a1 a2 =
             Except.error (ConvError.fatal
               "aten::upsample_nearest1d input Tensor and output size dimension mismatch"))
         ∨ (l.length = 1 ∧ t.dims.d.length < 1 ∧
           upsample_nearest1d ctx n t a1 a2 =
             Except.error ConvError.copyOutOfRange)
         ∨ (l.length = 1 ∧ 1 ≤ t.dims.d.length ∧
           upsample_nearest1d ctx n t a1 a2 =
             Except.ok
               ({ layers := ctx.layers ++
                    [Layer.resize t ⟨t.dims.d.take (t.dims.d.length - l.length) ++ l⟩
                      ResizeMode.kNEAREST n.info],
                  assocs := ctx.assocs ++
                    [(n.output0,
                      ⟨ctx.nextId, ⟨t.dims.d.take (t.dims.d.length - l.length) ++ l⟩⟩)],
                  nextId := ctx.nextId + 1 }, true)))) := by
  rcases a1 with _ | l
  · exact Or.inl ⟨Or.inl rfl, up1d_skip_lt4 _ _ _ _ _ hr4 (Or.inl rfl)⟩
  · rcases a2 with _ | u
    · right
      refine ⟨l, rfl, rfl, ?_⟩
      by_cases h1 : MAX_DIMS < l.length
      · exact Or.inl ⟨h1, up1d_lt4_err_osdim _ _ _ _ hr4 h1⟩
      · by_cases h2 : l.length = 1
        · by_cases h3 : t.dims.d.length < 1
          · exact Or.inr (Or.inr (Or.inl ⟨h2, h3, up1d_lt4_err_oob _ _ _ _ h3 h2⟩))
          · exact Or.inr (Or.inr (Or.inr
              ⟨h2, by omega, up1d_eval_lt4 _ _ _ _ (by omega) hr4 h2⟩))
        · exact Or.inr (Or.inl ⟨by omega, h2, up1d_lt4_err_assert _ _ _ _ hr4 (by omega) h2⟩)
    · cases u
      exact Or.inl ⟨Or.inr rfl, up1d_skip_lt4 _ _ _ _ _ hr4 (Or.inr rfl)⟩

theorem up1d_runs_ge4 (ctx : ConversionCtx) (n : Node) (t : Tensor)
    (a1 : Option (List Int)) (a2 : Option Unit) (hr : 4 ≤ t.dims.d.length) :
    (MAX_DIMS < t.dims.d.length - 1 ∧
      upsample_nearest1d ctx n t a1 a2 =
        Except.error (ConvError.dimsDomain (t.dims.d.length - 1)))
    ∨ (t.dims.d.length - 1 ≤ MAX_DIMS ∧
       (((a1 = none ∨ a2 = some ()) ∧
          upsample_nearest1d ctx n t a1 a2 =
            Except.ok
              ({ layers := ctx.layers ++
                   [Layer.shuffle t ⟨t.dims.d.drop 1⟩
                     (n.info ++ " [Reshape to " ++ toStr ⟨t.dims.d.drop 1⟩ ++ "]")],
                 assocs := ctx.assocs,
                 nextId := ctx.nextId + 1 }, true))
        ∨ (∃ l, a1 = some l ∧ a2 = none ∧
            ((MAX_DIMS < l.length ∧
               upsample_nearest1d ctx n t a1 a2 =
                 Except.error (ConvError.dimsDomain l.length))
             ∨ (l.length ≤ MAX_DIMS ∧ l.length ≠ 1 ∧
               upsample_nearest1d ctx n t a1 a2 =
                 Except.error (ConvError.fatal
                   "aten::upsample_nearest1d input Tensor and output size dimension mismatch"))
             ∨ (l.length = 1 ∧
               upsample_nearest1d ctx n t a1 a2 =
                 Except.ok
                   ({ layers := (ctx.layers ++
                        [Layer.shuffle t ⟨t.dims.d.drop 1⟩
                          (n.info ++ " [Reshape to " ++ toStr ⟨t.dims.d.drop 1⟩ ++ "]")]) ++
                        [Layer.resize ⟨ctx.nextId, ⟨t.dims.d.drop 1⟩⟩
                          ⟨(t.dims.d.drop 1).take ((t.dims.d.drop 1).length - l.length) ++ l⟩
                          ResizeMode.kNEAREST n.info],
                      assocs := ctx.assocs ++
                        [(n.output0,
                          ⟨ctx.nextId + 1,
                           ⟨(t.dims.d.drop 1).take ((t.dims.d.drop 1).length - l.length) ++ l⟩⟩)],
                      nextId := ctx.nextId + 1 + 1 }, true)))))) := by
  by_cases hd : MAX_DIMS < t.dims.d.length - 1
  · exact Or.inl ⟨hd, up1d_err_step1 _ _ _ _ _ hr hd⟩
  · right
    refine ⟨by omega, ?_⟩
    rcases a1 with _ | l
    · exact Or.inl ⟨Or.inl rfl, up1d_skip_ge4 _ _ _ _ _ (by omega) hr (Or.inl rfl)⟩
    · rcases a2 with _ | u
      · right
        refine ⟨l, rfl, rfl, ?_⟩
        by_cases h1 : MAX_DIMS < l.length
        · exact Or.inl ⟨h1, up1d_ge4_err_osdim _ _ _ _ hr (by omega) h1⟩
        · by_cases h2 : l.length = 1
          · exact Or.inr (Or.inr ⟨h2, up1d_eval_ge4 _ _ _ _ (by omega) hr h2⟩)
          · exact Or.inr (Or.inl
              ⟨by omega, h2, up1d_ge4_err_assert _ _ _ _ hr (by omega) (by omega) h2⟩)
      · cases u
        exact Or.inl ⟨Or.inr rfl, up1d_skip_ge4 _ _ _ _ _ (by omega) hr (Or.inr rfl)⟩

/-! ### Helper lemmas for the claim theorems -/

theorem ok_pair_eq {c0 c : ConversionCtx} {b0 b : Bool}
    (h : (Except.ok (c0, b0) : Except ConvError (ConversionCtx × Bool)) =
      Except.ok (c, b)) : c = c0 ∧ b = b0 := by
  injection h with h1
  injection h1 with h2 h3
  exact ⟨h2.symm, h3.symm⟩

theorem declaredOutput_of_append (c : ConversionCtx) (b : Bool) (v : Nat)
    (outT : Tensor) (base : List (Nat × Tensor))
    (h : c.assocs = base ++ [(v, outT)]) :
    declaredOutput (Except.ok (c, b)) v = some (toVec outT.dims) := by
  unfold declaredOutput
  dsimp only
  rw [h, List.reverse_append]
  simp

theorem filter_append_shuffle (L : List Layer) (t : Tensor) (rd : Dims) (nm : String) :
    (L ++ [Layer.shuffle t rd nm]).filter Layer.isShuffle =
      L.filter Layer.isShuffle ++ [Layer.shuffle t rd nm] := by
  rw [List.filter_append]
  rfl

theorem filter_append_resize (L : List Layer) (t : Tensor) (od : Dims)
    (m : ResizeMode) (nm : String) :
    (L ++ [Layer.resize t od m nm]).filter Layer.isShuffle =
      L.filter Layer.isShuffle := by
  rw [List.filter_append]
  simp [Layer.isShuffle, List.filter]

/-! ### Claim theorems -/

/-- C5: the shape-conversion functions are mutual inverses:
    toDims (toVec d) = d for every valid native shape d, and
    toVec (toDims v) = v for every integer sequence v of rank at most the
    backend maximum. -/
theorem C5_thm :
    (∀ x : Dims, x.valid → toDims (toVec x) = some x) ∧
    (∀ v : List Int, v.length ≤ MAX_DIMS → (toDims v).map toVec = some v) := by
  constructor
  · intro x h
    cases x with
    | mk d => exact toDims_of_le d h
  · intro v h
    rw [toDims_of_le v h]
    rfl

/-- Witness for C5 at concrete shapes. -/
theorem C5_witness :
    (Dims.valid ⟨[1, 2, 3]⟩ ∧ toDims (toVec ⟨[1, 2, 3]⟩) = some ⟨[1, 2, 3]⟩) ∧
    (([4, 5] : List Int).length ≤ MAX_DIMS ∧ (toDims [4, 5]).map toVec = some [4, 5]) :=
  ⟨⟨by decide, C5_thm.1 ⟨[1, 2, 3]⟩ (by decide)⟩,
   ⟨by decide, C5_thm.2 [4, 5] (by decide)⟩⟩

/-- C8: every converter in the family returns success (true) on every
    execution path that reaches completion, including the skipped
    scale-factor path; no completing path returns false. -/
theorem C8_thm :
    (∀ ctx n t a1 a2 c b,
        upsample_nearest1d ctx n t a1 a2 = Except.ok (c, b) → b = true) ∧
    (∀ ctx n t a1 a2 a3 c b,
        upsample_nearest2d ctx n t a1 a2 a3 = Except.ok (c, b) → b = true) ∧
    (∀ ctx n t a1 a2 a3 a4 c b,
        upsample_nearest3d ctx n t a1 a2 a3 a4 = Except.ok (c, b) → b = true) := by
  refine ⟨?_, ?_, ?_⟩
  · intro ctx n t a1 a2 c b h
    by_cases hr : 4 ≤ t.dims.d.length
    · rcases up1d_runs_ge4 ctx n t a1 a2 hr with ⟨_, he⟩ | ⟨_, hc⟩
      · rw [he] at h; exact Except.noConfusion h
      · rcases hc with ⟨_, he⟩ | ⟨l, _, _, hc2⟩
        · rw [he] at h; exact (ok_pair_eq h).2
        · rcases hc2 with ⟨_, he⟩ | ⟨_, _, he⟩ | ⟨_, he⟩
          · rw [he] at h; exact Except.noConfusion h
          · rw [he] at h; exact Except.noConfusion h
          · rw [he] at h; exact (ok_pair_eq h).2
    · rcases up1d_runs_lt4 ctx n t a1 a2 (by omega) with ⟨_, he⟩ | ⟨l, _, _, hc⟩
      · rw [he] at h; exact (ok_pair_eq h).2
      · rcases hc with ⟨_, he⟩ | ⟨_, _, he⟩ | ⟨_, _, he⟩ | ⟨_, _, he⟩
        · rw [he] at h; exact Except.noConfusion h
        · rw [he] at h; exact Except.noConfusion h
        · rw [he] at h; exact Except.noConfusion h
        · rw [he] at h; exact (ok_pair_eq h).2
  · intro ctx n t a1 a2 a3 c b h
    rcases up2d_runs ctx n t a1 a2 a3 with ⟨_, he⟩ | ⟨l, _, _, _, hc⟩
    · rw [he] at h; exact (ok_pair_eq h).2
    · rcases hc with ⟨_, he⟩ | ⟨_, _, he⟩ | ⟨_, _, he⟩ | ⟨_, _, _, he⟩ | ⟨_, _, _, he⟩
      · rw [he] at h; exact Except.noConfusion h
      · rw [he] at h; exact Except.noConfusion h
      · rw [he] at h; exact Except.noConfusion h
      · rw [he] at h; exact Except.noConfusion h
      · rw [he] at h; exact (ok_pair_eq h).2
  · intro ctx n t a1 a2 a3 a4 c b h
    rcases up3d_runs ctx n t a1 a2 a3 a4 with ⟨_, he⟩ | ⟨l, _, _, _, _, hc⟩
    · rw [he] at h; exact (ok_pair_eq h).2
    · rcases hc with ⟨_, he⟩ | ⟨_, _, he⟩ | ⟨_, _, he⟩ | ⟨_, _, _, he⟩ | ⟨_, _, _, he⟩
      · rw [he] at h; exact Except.noConfusion h
      · rw [he] at h; exact Except.noConfusion h
      · rw [he] at h; exact Except.noConfusion h
      · rw [he] at h; exact Except.noConfusion h
      · rw [he] at h; exact (ok_pair_eq h).2

/-- Witness for C8: the 2-D converter applied on the scale-factor skip path
    completes with result true. -/
theorem C8_witness : (true : Bool) = true :=
  C8_thm.2.1 ctx0 n0 ⟨0, ⟨[1, 3, 32, 32]⟩⟩ none (some ()) none ctx0 true (by rfl)

/-- C2 counterexample: the claim fails on the 1-D converter.  On input of
    backend-observed rank 4 with output_size absent (precondition failed),
    the converter still mutates the graph: the completed run has created
    one new layer, contradicting "creates no new layer ... performs no
    graph mutation at all". -/
theorem C2_counterexample :
    (match upsample_nearest1d ctx0 n0 ⟨0, ⟨[1, 2, 3, 4]⟩⟩ none none with
     | Except.ok (c, _) => c.layers.length
     | Except.error _ => 0) = 1 ∧ (1 : Nat) ≠ 0 :=
  ⟨by decide, by decide⟩

/-- C2 (amended): when the parameter-mode precondition fails, the 2-D and
    3-D converters, and the 1-D converter on backend-observed rank < 4,
    create no layer, record no association, perform no mutation at all and
    return success; the 1-D converter on a valid input of rank ≥ 4 still
    inserts its reconciliation shuffle layer (and only it, recording no
    association) before skipping, and returns success without fatal
    error. -/
theorem C2_thm :
    (∀ ctx n t a1 a2 a3, (a1 = none ∨ a2 = some () ∨ a3 = some ()) →
        upsample_nearest2d ctx n t a1 a2 a3 = Except.ok (ctx, true)) ∧
    (∀ ctx n t a1 a2 a3 a4,
        (a1 = none ∨ a2 = some () ∨ a3 = some () ∨ a4 = some ()) →
        upsample_nearest3d ctx n t a1 a2 a3 a4 = Except.ok (ctx, true)) ∧
    (∀ ctx n t a1 a2, (a1 = none ∨ a2 = some ()) → (toVec t.dims).length < 4 →
        upsample_nearest1d ctx n t a1 a2 = Except.ok (ctx, true)) ∧
    (∀ ctx n t a1 a2, (a1 = none ∨ a2 = some ()) → 4 ≤ (toVec t.dims).length →
        Dims.valid t.dims →
        upsample_nearest1d ctx n t a1 a2 =
          Except.ok
            ({ layers := ctx.layers ++
                 [Layer.shuffle t ⟨(toVec t.dims).drop 1⟩
                   (n.info ++ " [Reshape to " ++ toStr ⟨(toVec t.dims).drop 1⟩ ++ "]")],
               assocs := ctx.assocs,
               nextId := ctx.nextId + 1 }, true)) := by
  refine ⟨?_, ?_, ?_, ?_⟩
  · intro ctx n t a1 a2 a3 h
    exact up2d_skip ctx n t a1 a2 a3 h
  · intro ctx n t a1 a2 a3 a4 h
    exact up3d_skip ctx n t a1 a2 a3 a4 h
  · intro ctx n t a1 a2 h hr
    exact up1d_skip_lt4 ctx n t a1 a2 hr h
  · intro ctx n t a1 a2 h hr hv
    have hv2 : t.dims.d.length ≤ MAX_DIMS := hv
    exact up1d_skip_ge4 ctx n t a1 a2 (by omega) hr h

/-- Witness for C2 at concrete inputs: all four clauses instantiated. -/
theorem C2_witness :
    upsample_nearest2d ctx0 n0 ⟨0, ⟨[1, 3, 32, 32]⟩⟩ (some [64, 64]) (some ()) none =
      Except.ok (ctx0, true) ∧
    upsample_nearest3d ctx0 n0 ⟨0, ⟨[1, 3, 4, 8, 8]⟩⟩ none none none none =
      Except.ok (ctx0, true) ∧
    upsample_nearest1d ctx0 n0 ⟨0, ⟨[2, 3, 8]⟩⟩ none none = Except.ok (ctx0, true) ∧
    upsample_nearest1d ctx0 n0 ⟨0, ⟨[1, 2, 3, 4]⟩⟩ (some [9]) (some ()) =
      Except.ok
        ({ layers := ctx0.layers ++
             [Layer.shuffle ⟨0, ⟨[1, 2, 3, 4]⟩⟩ ⟨[2, 3, 4]⟩
               (n0.info ++ " [Reshape to " ++ toStr ⟨[2, 3, 4]⟩ ++ "]")],
           assocs := ctx0.assocs,
           nextId := ctx0.nextId + 1 }, true) :=
  ⟨C2_thm.1 ctx0 n0 ⟨0, ⟨[1, 3, 32, 32]⟩⟩ (some [64, 64]) (some ()) none
     (Or.inr (Or.inl rfl)),
   C2_thm.2.1 ctx0 n0 ⟨0, ⟨[1, 3, 4, 8, 8]⟩⟩ none none none none (Or.inl rfl),
   C2_thm.2.2.1 ctx0 n0 ⟨0, ⟨[2, 3, 8]⟩⟩ none none (Or.inl rfl) (by decide),
   C2_thm.2.2.2 ctx0 n0 ⟨0, ⟨[1, 2, 3, 4]⟩⟩ (some [9]) (some ()) (Or.inr rfl)
     (by decide) (by decide)⟩

/-- C1 counterexample: the claim fails on the 1-D converter when the
    backend-observed rank is ≥ 4.  With backend-observed shape
    S = [1, 2, 3, 8] and output_size [16], the declared output shape is
    [2, 3, 16] (the leading entry is dropped), not S with its last entry
    overwritten ([1, 2, 3, 16]). -/
theorem C1_counterexample :
    declaredOutput
        (upsample_nearest1d ctx0 n0 ⟨0, ⟨[1, 2, 3, 8]⟩⟩ (some [16]) none)
        n0.output0 = some [2, 3, 16] ∧
    some ([2, 3, 16] : List Int) ≠ some [1, 2, 3, 16] :=
  ⟨by decide, by decide⟩

/-- C1 (amended): for R = 2, 3 always, and for R = 1 when the
    backend-observed rank is < 4, the declared output shape is the
    backend-observed shape S with its last R entries overwritten by
    output_size, leading entries unchanged; for R = 1 with backend-observed
    rank ≥ 4, the declared output is S with its first entry removed and the
    last entry of the remainder overwritten by output_size. -/
theorem C1_thm :
    (∀ ctx n t (l : List Int), 1 ≤ (toVec t.dims).length →
        (toVec t.dims).length < 4 → l.length = 1 →
        declaredOutput (upsample_nearest1d ctx n t (some l) none) n.output0 =
          some ((toVec t.dims).take ((toVec t.dims).length - l.length) ++ l)) ∧
    (∀ ctx n t (l : List Int), Dims.valid t.dims → 4 ≤ (toVec t.dims).length →
        l.length = 1 →
        declaredOutput (upsample_nearest1d ctx n t (some l) none) n.output0 =
          some (((toVec t.dims).drop 1).take
            (((toVec t.dims).drop 1).length - l.length) ++ l)) ∧
    (∀ ctx n t (l : List Int), Dims.valid t.dims → 2 ≤ (toVec t.dims).length →
        l.length = 2 →
        declaredOutput (upsample_nearest2d ctx n t (some l) none none) n.output0 =
          some ((toVec t.dims).take ((toVec t.dims).length - l.length) ++ l)) ∧
    (∀ ctx n t (l : List Int), Dims.valid t.dims → 3 ≤ (toVec t.dims).length →
        l.length = 3 →
        declaredOutput (upsample_nearest3d ctx n t (some l) none none none) n.output0 =
          some ((toVec t.dims).take ((toVec t.dims).length - l.length) ++ l)) := by
  refine ⟨?_, ?_, ?_, ?_⟩
  · intro ctx n t l hr1 hr4 hl
    rw [up1d_eval_lt4 ctx n t l hr1 hr4 hl]
    exact declaredOutput_of_append _ true n.output0
      ⟨ctx.nextId, ⟨t.dims.d.take (t.dims.d.length - l.length) ++ l⟩⟩ ctx.assocs rfl
  · intro ctx n t l hv hr hl
    have hv2 : t.dims.d.length ≤ MAX_DIMS := hv
    rw [up1d_eval_ge4 ctx n t l (by omega) hr hl]
    exact declaredOutput_of_append _ true n.output0
      ⟨ctx.nextId + 1, ⟨(t.dims.d.drop 1).take ((t.dims.d.drop 1).length - l.length) ++ l⟩⟩
      ctx.assocs rfl
  · intro ctx n t l hv hr hl
    rw [up2d_eval ctx n t l hv hl hr]
    exact declaredOutput_of_append _ true n.output0
      ⟨ctx.nextId, ⟨t.dims.d.take (t.dims.d.length - l.length) ++ l⟩⟩ ctx.assocs rfl
  · intro ctx n t l hv hr hl
    rw [up3d_eval ctx n t l hv hl hr]
    exact declaredOutput_of_append _ true n.output0
      ⟨ctx.nextId, ⟨t.dims.d.take (t.dims.d.length - l.length) ++ l⟩⟩ ctx.assocs rfl

/-- Witness for C1 on the concrete scenarios of the spec: 1-D on [2,3,8] with
    output_size [16]; 1-D on rank-4 [1,2,3,8]; 2-D on [1,3,32,32] with
    [64,64]; 3-D on [1,3,4,8,8] with [4,16,16]. -/
theorem C1_witness :
    declaredOutput (upsample_nearest1d ctx0 n0 ⟨0, ⟨[2, 3, 8]⟩⟩ (some [16]) none)
      n0.output0 = some [2, 3, 16] ∧
    declaredOutput (upsample_nearest1d ctx0 n0 ⟨0, ⟨[1, 2, 3, 8]⟩⟩ (some [16]) none)
      n0.output0 = some [2, 3, 16] ∧
    declaredOutput
      (upsample_nearest2d ctx0 n0 ⟨0, ⟨[1, 3, 32, 32]⟩⟩ (some [64, 64]) none none)
      n0.output0 = some [1, 3, 64, 64] ∧
    declaredOutput
      (upsample_nearest3d ctx0 n0 ⟨0, ⟨[1, 3, 4, 8, 8]⟩⟩ (some [4, 16, 16]) none none none)
      n0.output0 = some [1, 3, 4, 16, 16] :=
  ⟨C1_thm.1 ctx0 n0 ⟨0, ⟨[2, 3, 8]⟩⟩ [16] (by decide) (by decide) (by decide),
   C1_thm.2.1 ctx0 n0 ⟨0, ⟨[1, 2, 3, 8]⟩⟩ [16] (by decide) (by decide) (by decide),
   C1_thm.2.2.1 ctx0 n0 ⟨0, ⟨[1, 3, 32, 32]⟩⟩ [64, 64] (by decide) (by decide) (by decide),
   C1_thm.2.2.2 ctx0 n0 ⟨0, ⟨[1, 3, 4, 8, 8]⟩⟩ [4, 16, 16] (by decide) (by decide)
     (by decide)⟩

/-- C4 counterexample: the claim fails for an output_size list longer than
    the backend maximum rank.  The 2-D converter given an output_size of 9
    integers (≠ 2) fails inside the shape conversion with the rank-domain
    fault, which carries no message naming the operator, not with the
    operator-naming dimension-mismatch assertion. -/
theorem C4_counterexample :
    upsample_nearest2d ctx0 n0 ⟨0, ⟨[1, 3, 32, 32]⟩⟩
        (some [1, 2, 3, 4, 5, 6, 7, 8, 9]) none none =
      Except.error (ConvError.dimsDomain 9) ∧
    ∀ msg, ConvError.dimsDomain 9 ≠ ConvError.fatal msg :=
  ⟨rfl, fun _ h => ConvError.noConfusion h⟩

/-- C4 (amended): on the layer-building path, an unwrapped output_size list
    of length ≠ R that is within the backend rank domain (length ≤
    MAX_DIMS) fails with the fatal dimension-mismatch assertion whose
    message starts with the operator name; a longer list fails earlier, in
    the shape conversion, with a rank-domain fault that does not name the
    operator. -/
theorem C4_thm :
    (∀ ctx n t (l : List Int), Dims.valid t.dims → l.length ≤ MAX_DIMS →
        l.length ≠ 1 →
        upsample_nearest1d ctx n t (some l) none =
          Except.error (ConvError.fatal
            ("aten::upsample_nearest1d" ++
             " input Tensor and output size dimension mismatch"))) ∧
    (∀ ctx n t (l : List Int), l.length ≤ MAX_DIMS → l.length ≠ 2 →
        upsample_nearest2d ctx n t (some l) none none =
          Except.error (ConvError.fatal
            ("aten::upsample_nearest2d" ++
             " input Tensor and output size dimension mismatch"))) ∧
    (∀ ctx n t (l : List Int), l.length ≤ MAX_DIMS → l.length ≠ 3 →
        upsample_nearest3d ctx n t (some l) none none none =
          Except.error (ConvError.fatal
            ("aten::upsample_nearest3d" ++
             " input Tensor and output size dimension mismatch"))) ∧
    (∀ ctx n t (l : List Int), MAX_DIMS < l.length →
        upsample_nearest2d ctx n t (some l) none none =
          Except.error (ConvError.dimsDomain l.length)) := by
  refine ⟨?_, ?_, ?_, ?_⟩
  · intro ctx n t l hv h8 hne
    have hv2 : t.dims.d.length ≤ MAX_DIMS := hv
    by_cases hr : 4 ≤ t.dims.d.length
    · exact up1d_ge4_err_assert ctx n t l hr (by omega) h8 hne
    · exact up1d_lt4_err_assert ctx n t l (by omega) h8 hne
  · intro ctx n t l h8 hne
    exact up2d_err_assert ctx n t l h8 hne
  · intro ctx n t l h8 hne
    exact up3d_err_assert ctx n t l h8 hne
  · intro ctx n t l h
    exact up2d_err_osdim ctx n t l h

/-- Witness for C4: each converter at a concrete mismatched output_size. -/
theorem C4_witness :
    upsample_nearest1d ctx0 n0 ⟨0, ⟨[2, 3, 8]⟩⟩ (some [16, 16]) none =
      Except.error (ConvError.fatal
        ("aten::upsample_nearest1d" ++
         " input Tensor and output size dimension mismatch")) ∧
    upsample_nearest2d ctx0 n0 ⟨0, ⟨[1, 3, 32, 32]⟩⟩ (some [64]) none none =
      Except.error (ConvError.fatal
        ("aten::upsample_nearest2d" ++
         " input Tensor and output size dimension mismatch")) ∧
    upsample_nearest3d ctx0 n0 ⟨0, ⟨[1, 3, 4, 8, 8]⟩⟩ (some [4, 16]) none none none =
      Except.error (ConvError.fatal
        ("aten::upsample_nearest3d" ++
         " input Tensor and output size dimension mismatch")) ∧
    upsample_nearest2d ctx0 n0 ⟨0, ⟨[1, 3, 32, 32]⟩⟩
        (some [1, 2, 3, 4, 5, 6, 7, 8, 9]) none none =
      Except.error (ConvError.dimsDomain 9) :=
  ⟨C4_thm.1 ctx0 n0 ⟨0, ⟨[2, 3, 8]⟩⟩ [16, 16] (by decide) (by decide) (by decide),
   C4_thm.2.1 ctx0 n0 ⟨0, ⟨[1, 3, 32, 32]⟩⟩ [64] (by decide) (by decide),
   C4_thm.2.2.1 ctx0 n0 ⟨0, ⟨[1, 3, 4, 8, 8]⟩⟩ [4, 16] (by decide) (by decide),
   C4_thm.2.2.2 ctx0 n0 ⟨0, ⟨[1, 3, 32, 32]⟩⟩ [1, 2, 3, 4, 5, 6, 7, 8, 9] (by decide)⟩

/-- C3: for the 1-D converter, whenever the backend-observed rank is ≥ 4
    (and the shape is valid for the backend), every completed run has
    inserted exactly one reshape (shuffle) layer whose reshape dimensions
    are the input shape with its first dimension removed, and any output
    association it declares has rank equal to the rank of the reshaped input;
    when the backend-observed rank is < 4, no reshape layer is inserted. -/
theorem C3_thm :
    ∀ ctx n (t : Tensor) a1 a2, Dims.valid t.dims →
      ((4 ≤ (toVec t.dims).length →
        ∀ c b, upsample_nearest1d ctx n t a1 a2 = Except.ok (c, b) →
          (∃ nm, c.layers.filter Layer.isShuffle =
              ctx.layers.filter Layer.isShuffle ++
                [Layer.shuffle t ⟨(toVec t.dims).drop 1⟩ nm]) ∧
          (c.assocs = ctx.assocs ∨
           ∃ outT, c.assocs = ctx.assocs ++ [(n.output0, outT)] ∧
             (toVec outT.dims).length = (toVec t.dims).length - 1)) ∧
      ((toVec t.dims).length < 4 →
        ∀ c b, upsample_nearest1d ctx n t a1 a2 = Except.ok (c, b) →
          c.layers.filter Layer.isShuffle = ctx.layers.filter Layer.isShuffle)) := by
  intro ctx n t a1 a2 hv
  have hv2 : t.dims.d.length ≤ MAX_DIMS := hv
  constructor
  · intro hr c b h
    have hr3 : 4 ≤ t.dims.d.length := hr
    rcases up1d_runs_ge4 ctx n t a1 a2 hr with ⟨hd, _⟩ | ⟨h9, hc⟩
    · exact absurd hd (by omega)
    · rcases hc with ⟨_, he⟩ | ⟨l, _, _, hc2⟩
      · rw [he] at h
        obtain ⟨hc0, -⟩ := ok_pair_eq h
        subst hc0
        exact ⟨⟨_, filter_append_shuffle ctx.layers t ⟨t.dims.d.drop 1⟩ _⟩, Or.inl rfl⟩
      · rcases hc2 with ⟨_, he⟩ | ⟨_, _, he⟩ | ⟨hl, he⟩
        · rw [he] at h; exact Except.noConfusion h
        · rw [he] at h; exact Except.noConfusion h
        · rw [he] at h
          obtain ⟨hc0, -⟩ := ok_pair_eq h
          subst hc0
          constructor
          · exact ⟨_, (filter_append_resize _ _ _ _ _).trans
              (filter_append_shuffle ctx.layers t ⟨t.dims.d.drop 1⟩ _)⟩
          · right
            refine ⟨⟨ctx.nextId + 1,
              ⟨(t.dims.d.drop 1).take ((t.dims.d.drop 1).length - l.length) ++ l⟩⟩,
              rfl, ?_⟩
            show ((t.dims.d.drop 1).take ((t.dims.d.drop 1).length - l.length) ++ l).length =
              t.dims.d.length - 1
            rw [length_take_append _ l (by rw [List.length_drop]; omega),
              List.length_drop]
  · intro hr c b h
    have hr2 : t.dims.d.length < 4 := hr
    rcases up1d_runs_lt4 ctx n t a1 a2 hr2 with ⟨_, he⟩ | ⟨l, _, _, hc⟩
    · rw [he] at h
      obtain ⟨hc0, -⟩ := ok_pair_eq h
      subst hc0
      rfl
    · rcases hc with ⟨_, he⟩ | ⟨_, _, he⟩ | ⟨_, _, he⟩ | ⟨_, _, he⟩
      · rw [he] at h; exact Except.noConfusion h
      · rw [he] at h; exact Except.noConfusion h
      · rw [he] at h; exact Except.noConfusion h
      · rw [he] at h
        obtain ⟨hc0, -⟩ := ok_pair_eq h
        subst hc0
        exact filter_append_resize _ _ _ _ _

/-- Witness for C3: both rank regimes at concrete inputs. -/
theorem C3_witness :
    ((∃ nm, (ConversionCtx.mk
        ((ctx0.layers ++
          [Layer.shuffle ⟨0, ⟨[1, 2, 3, 8]⟩⟩ ⟨[2, 3, 8]⟩
            (n0.info ++ " [Reshape to " ++ toStr ⟨[2, 3, 8]⟩ ++ "]")]) ++
          [Layer.resize ⟨ctx0.nextId, ⟨[2, 3, 8]⟩⟩ ⟨[2, 3, 16]⟩
            ResizeMode.kNEAREST n0.info])
        (ctx0.assocs ++ [(n0.output0, ⟨ctx0.nextId + 1, ⟨[2, 3, 16]⟩⟩)])
        (ctx0.nextId + 1 + 1)).layers.filter Layer.isShuffle =
          ctx0.layers.filter Layer.isShuffle ++
            [Layer.shuffle ⟨0, ⟨[1, 2, 3, 8]⟩⟩ ⟨[2, 3, 8]⟩ nm]) ∧
     ((ConversionCtx.mk
        ((ctx0.layers ++
          [Layer.shuffle ⟨0, ⟨[1, 2, 3, 8]⟩⟩ ⟨[2, 3, 8]⟩
            (n0.info ++ " [Reshape to " ++ toStr ⟨[2, 3, 8]⟩ ++ "]")]) ++
          [Layer.resize ⟨ctx0.nextId, ⟨[2, 3, 8]⟩⟩ ⟨[2, 3, 16]⟩
            ResizeMode.kNEAREST n0.info])
        (ctx0.assocs ++ [(n0.output0, ⟨ctx0.nextId + 1, ⟨[2, 3, 16]⟩⟩)])
        (ctx0.nextId + 1 + 1)).assocs = ctx0.assocs ∨
      ∃ outT, (ConversionCtx.mk
        ((ctx0.layers ++
          [Layer.shuffle ⟨0, ⟨[1, 2, 3, 8]⟩⟩ ⟨[2, 3, 8]⟩
            (n0.info ++ " [Reshape to " ++ toStr ⟨[2, 3, 8]⟩ ++ "]")]) ++
          [Layer.resize ⟨ctx0.nextId, ⟨[2, 3, 8]⟩⟩ ⟨[2, 3, 16]⟩
            ResizeMode.kNEAREST n0.info])
        (ctx0.assocs ++ [(n0.output0, ⟨ctx0.nextId + 1, ⟨[2, 3, 16]⟩⟩)])
        (ctx0.nextId + 1 + 1)).assocs = ctx0.assocs ++ [(n0.output0, outT)] ∧
        (toVec outT.dims).length = (toVec (Dims.mk [1, 2, 3, 8])).length - 1)) :=
  (C3_thm ctx0 n0 ⟨0, ⟨[1, 2, 3, 8]⟩⟩ (some [16]) none (by decide)).1 (by decide)
    _ true (by rfl)

/-- C6: the 2-D and 3-D converters never perform the leading-dimension
    reconciliation: every completed run inserts no shuffle layer, and any
    output shape is computed directly from the backend-observed input
    shape (last R entries overwritten by output_size). -/
theorem C6_thm :
    (∀ ctx n (t : Tensor) a1 a2 a3 c b,
        upsample_nearest2d ctx n t a1 a2 a3 = Except.ok (c, b) →
        c.layers.filter Layer.isShuffle = ctx.layers.filter Layer.isShuffle ∧
        (c.layers = ctx.layers ∨
         ∃ l, a1 = some l ∧
           c.layers = ctx.layers ++
             [Layer.resize t
               ⟨(toVec t.dims).take ((toVec t.dims).length - l.length) ++ l⟩
               ResizeMode.kNEAREST n.info])) ∧
    (∀ ctx n (t : Tensor) a1 a2 a3 a4 c b,
        upsample_nearest3d ctx n t a1 a2 a3 a4 = Except.ok (c, b) →
        c.layers.filter Layer.isShuffle = ctx.layers.filter Layer.isShuffle ∧
        (c.layers = ctx.layers ∨
         ∃ l, a1 = some l ∧
           c.layers = ctx.layers ++
             [Layer.resize t
               ⟨(toVec t.dims).take ((toVec t.dims).length - l.length) ++ l⟩
               ResizeMode.kNEAREST n.info])) := by
  constructor
  · intro ctx n t a1 a2 a3 c b h
    rcases up2d_runs ctx n t a1 a2 a3 with ⟨_, he⟩ | ⟨l, ha1, _, _, hc⟩
    · rw [he] at h
      obtain ⟨hc0, -⟩ := ok_pair_eq h
      subst hc0
      exact ⟨rfl, Or.inl rfl⟩
    · rcases hc with ⟨_, he⟩ | ⟨_, _, he⟩ | ⟨_, _, he⟩ | ⟨_, _, _, he⟩ | ⟨_, _, _, he⟩
      · rw [he] at h; exact Except.noConfusion h
      · rw [he] at h; exact Except.noConfusion h
      · rw [he] at h; exact Except.noConfusion h
      · rw [he] at h; exact Except.noConfusion h
      · rw [he] at h
        obtain ⟨hc0, -⟩ := ok_pair_eq h
        subst hc0
        exact ⟨filter_append_resize _ _ _ _ _, Or.inr ⟨l, ha1, rfl⟩⟩
  · intro ctx n t a1 a2 a3 a4 c b h
    rcases up3d_runs ctx n t a1 a2 a3 a4 with ⟨_, he⟩ | ⟨l, ha1, _, _, _, hc⟩
    · rw [he] at h
      obtain ⟨hc0, -⟩ := ok_pair_eq h
      subst hc0
      exact ⟨rfl, Or.inl rfl⟩
    · rcases hc with ⟨_, he⟩ | ⟨_, _, he⟩ | ⟨_, _, he⟩ | ⟨_, _, _, he⟩ | ⟨_, _, _, he⟩
      · rw [he] at h; exact Except.noConfusion h
      · rw [he] at h; exact Except.noConfusion h
      · rw [he] at h; exact Except.noConfusion h
      · rw [he] at h; exact Except.noConfusion h
      · rw [he] at h
        obtain ⟨hc0, -⟩ := ok_pair_eq h
        subst hc0
        exact ⟨filter_append_resize _ _ _ _ _, Or.inr ⟨l, ha1, rfl⟩⟩

/-- Witness for C6: the 2-D converter at Scenario B. -/
theorem C6_witness :
    (ConversionCtx.mk
        (ctx0.layers ++
          [Layer.resize ⟨0, ⟨[1, 3, 32, 32]⟩⟩ ⟨[1, 3, 64, 64]⟩
            ResizeMode.kNEAREST n0.info])
        (ctx0.assocs ++ [(n0.output0, ⟨ctx0.nextId, ⟨[1, 3, 64, 64]⟩⟩)])
        (ctx0.nextId + 1)).layers.filter Layer.isShuffle =
      ctx0.layers.filter Layer.isShuffle ∧
    ((ConversionCtx.mk
        (ctx0.layers ++
          [Layer.resize ⟨0, ⟨[1, 3, 32, 32]⟩⟩ ⟨[1, 3, 64, 64]⟩
            ResizeMode.kNEAREST n0.info])
        (ctx0.assocs ++ [(n0.output0, ⟨ctx0.nextId, ⟨[1, 3, 64, 64]⟩⟩)])
        (ctx0.nextId + 1)).layers = ctx0.layers ∨
     ∃ l, (some [64, 64] : Option (List Int)) = some l ∧
       (ConversionCtx.mk
        (ctx0.layers ++
          [Layer.resize ⟨0, ⟨[1, 3, 32, 32]⟩⟩ ⟨[1, 3, 64, 64]⟩
            ResizeMode.kNEAREST n0.info])
        (ctx0.assocs ++ [(n0.output0, ⟨ctx0.nextId, ⟨[1, 3, 64, 64]⟩⟩)])
        (ctx0.nextId + 1)).layers = ctx0.layers ++
         [Layer.resize ⟨0, ⟨[1, 3, 32, 32]⟩⟩
           ⟨(toVec (Dims.mk [1, 3, 32, 32])).take
             ((toVec (Dims.mk [1, 3, 32, 32])).length - l.length) ++ l⟩
           ResizeMode.kNEAREST n0.info]) :=
  C6_thm.1 ctx0 n0 ⟨0, ⟨[1, 3, 32, 32]⟩⟩ (some [64, 64]) none none _ true (by rfl)

/-- C7: on the layer-building path every converter creates one resize layer
    on the (possibly reshaped) input tensor, sets its output dimensions to
    the computed output shape, sets nearest-neighbor mode, names it from
    the info string of the originating node, and records exactly one association
    mapping the sole output value of the node to the sole output
    tensor. -/
theorem C7_thm :
    (∀ ctx n (t : Tensor) (l : List Int), Dims.valid t.dims →
        4 ≤ (toVec t.dims).length → l.length = 1 →
        upsample_nearest1d ctx n t (some l) none =
          Except.ok
            ({ layers := (ctx.layers ++
                 [Layer.shuffle t ⟨(toVec t.dims).drop 1⟩
                   (n.info ++ " [Reshape to " ++ toStr ⟨(toVec t.dims).drop 1⟩ ++ "]")]) ++
                 [Layer.resize ⟨ctx.nextId, ⟨(toVec t.dims).drop 1⟩⟩
                   ⟨((toVec t.dims).drop 1).take
                     (((toVec t.dims).drop 1).length - l.length) ++ l⟩
                   ResizeMode.kNEAREST n.info],
               assocs := ctx.assocs ++
                 [(n.output0,
                   ⟨ctx.nextId + 1,
                    ⟨((toVec t.dims).drop 1).take
                      (((toVec t.dims).drop 1).length - l.length) ++ l⟩⟩)],
               nextId := ctx.nextId + 1 + 1 }, true)) ∧
    (∀ ctx n (t : Tensor) (l : List Int), 1 ≤ (toVec t.dims).length →
        (toVec t.dims).length < 4 → l.length = 1 →
        upsample_nearest1d ctx n t (some l) none =
          Except.ok
            ({ layers := ctx.layers ++
                 [Layer.resize t
                   ⟨(toVec t.dims).take ((toVec t.dims).length - l.length) ++ l⟩
                   ResizeMode.kNEAREST n.info],
               assocs := ctx.assocs ++
                 [(n.output0,
                   ⟨ctx.nextId,
                    ⟨(toVec t.dims).take ((toVec t.dims).length - l.length) ++ l⟩⟩)],
               nextId := ctx.nextId + 1 }, true)) ∧
    (∀ ctx n (t : Tensor) (l : List Int), Dims.valid t.dims →
        2 ≤ (toVec t.dims).length → l.length = 2 →
        upsample_nearest2d ctx n t (some l) none none =
          Except.ok
            ({ layers := ctx.layers ++
                 [Layer.resize t
                   ⟨(toVec t.dims).take ((toVec t.dims).length - l.length) ++ l⟩
                   ResizeMode.kNEAREST n.info],
               assocs := ctx.assocs ++
                 [(n.output0,
                   ⟨ctx.nextId,
                    ⟨(toVec t.dims).take ((toVec t.dims).length - l.length) ++ l⟩⟩)],
               nextId := ctx.nextId + 1 }, true)) ∧
    (∀ ctx n (t : Tensor) (l : List Int), Dims.valid t.dims →
        3 ≤ (toVec t.dims).length → l.length = 3 →
        upsample_nearest3d ctx n t (some l) none none none =
          Except.ok
            ({ layers := ctx.layers ++
                 [Layer.resize t
                   ⟨(toVec t.dims).take ((toVec t.dims).length - l.length) ++ l⟩
                   ResizeMode.kNEAREST n.info],
               assocs := ctx.assocs ++
                 [(n.output0,
                   ⟨ctx.nextId,
                    ⟨(toVec t.dims).take ((toVec t.dims).length - l.length) ++ l⟩⟩)],
               nextId := ctx.nextId + 1 }, true)) := by
  refine ⟨?_, ?_, ?_, ?_⟩
  · intro ctx n t l hv hr hl
    have hv2 : t.dims.d.length ≤ MAX_DIMS := hv
    exact up1d_eval_ge4 ctx n t l (by omega) hr hl
  · intro ctx n t l hr1 hr4 hl
    exact up1d_eval_lt4 ctx n t l hr1 hr4 hl
  · intro ctx n t l hv hr hl
    exact up2d_eval ctx n t l hv hl hr
  · intro ctx n t l hv hr hl
    exact up3d_eval ctx n t l hv hl hr

/-- Witness for C7: the 2-D converter at Scenario B builds exactly the
    resize layer and the single association. -/
theorem C7_witness :
    upsample_nearest2d ctx0 n0 ⟨0, ⟨[1, 3, 32, 32]⟩⟩ (some [64, 64]) none none =
      Except.ok
        ({ layers := ctx0.layers ++
             [Layer.resize ⟨0, ⟨[1, 3, 32, 32]⟩⟩
               ⟨(toVec (Dims.mk [1, 3, 32, 32])).take
                 ((toVec (Dims.mk [1, 3, 32, 32])).length - ([64, 64] : List Int).length) ++
                 [64, 64]⟩
               ResizeMode.kNEAREST n0.info],
           assocs := ctx0.assocs ++
             [(n0.output0,
               ⟨ctx0.nextId,
                ⟨(toVec (Dims.mk [1, 3, 32, 32])).take
                  ((toVec (Dims.mk [1, 3, 32, 32])).length - ([64, 64] : List Int).length) ++
                  [64, 64]⟩⟩)],
           nextId := ctx0.nextId + 1 }, true) :=
  C7_thm.2.2.1 ctx0 n0 ⟨0, ⟨[1, 3, 32, 32]⟩⟩ [64, 64] (by decide) (by decide) (by decide)

/-- C9 (implicit): for the 1-D converter on a valid input of
    backend-observed rank n ≥ 4 on the layer-building path, the tensor
    registered as the output of the node has declared rank n - 1: the stripped
    leading dimension is never restored after the resize layer. -/
theorem C9_thm :
    ∀ ctx n (t : Tensor) (l : List Int), Dims.valid t.dims →
      4 ≤ (toVec t.dims).length → l.length = 1 →
      ∃ c, upsample_nearest1d ctx n t (some l) none = Except.ok (c, true) ∧
        ∃ outT, c.assocs = ctx.assocs ++ [(n.output0, outT)] ∧
          (toVec outT.dims).length = (toVec t.dims).length - 1 := by
  intro ctx n t l hv hr hl
  have hv2 : t.dims.d.length ≤ MAX_DIMS := hv
  have hr2 : 4 ≤ t.dims.d.length := hr
  refine ⟨_, up1d_eval_ge4 ctx n t l (by omega) hr hl, ?_⟩
  refine ⟨⟨ctx.nextId + 1,
    ⟨(t.dims.d.drop 1).take ((t.dims.d.drop 1).length - l.length) ++ l⟩⟩, rfl, ?_⟩
  show ((t.dims.d.drop 1).take ((t.dims.d.drop 1).length - l.length) ++ l).length =
    t.dims.d.length - 1
  rw [length_take_append _ l (by rw [List.length_drop]; omega), List.length_drop]

/-- Witness for C9: rank-4 input [1,2,3,8]; the registered output has
    declared rank 3. -/
theorem C9_witness :
    ∃ c, upsample_nearest1d ctx0 n0 ⟨0, ⟨[1, 2, 3, 8]⟩⟩ (some [16]) none =
        Except.ok (c, true) ∧
      ∃ outT, c.assocs = ctx0.assocs ++ [(n0.output0, outT)] ∧
        (toVec outT.dims).length = (toVec (Dims.mk [1, 2, 3, 8])).length - 1 :=
  C9_thm ctx0 n0 ⟨0, ⟨[1, 2, 3, 8]⟩⟩ [16] (by decide) (by decide) (by decide)

/-- C10 (implicit): the output-shape copy is placed at offset
    (input rank - R) with no guard; whenever the (possibly reshaped) input
    rank is at least R the copy stays in range, so the out-of-range branch
    of the total embedding is unreachable; and no code path checks this
    precondition before the copy, witnessed by concrete runs with rank < R
    that do reach the out-of-range branch. -/
theorem C10_thm :
    (∀ ctx n (t : Tensor) a1 a2,
        1 ≤ (if 4 ≤ (toVec t.dims).length then (toVec t.dims).length - 1
             else (toVec t.dims).length) →
        upsample_nearest1d ctx n t a1 a2 ≠ Except.error ConvError.copyOutOfRange) ∧
    (∀ ctx n (t : Tensor) a1 a2 a3, 2 ≤ (toVec t.dims).length →
        upsample_nearest2d ctx n t a1 a2 a3 ≠ Except.error ConvError.copyOutOfRange) ∧
    (∀ ctx n (t : Tensor) a1 a2 a3 a4, 3 ≤ (toVec t.dims).length →
        upsample_nearest3d ctx n t a1 a2 a3 a4 ≠ Except.error ConvError.copyOutOfRange) ∧
    upsample_nearest1d ctx0 n0 ⟨0, ⟨[]⟩⟩ (some [7]) none =
      Except.error ConvError.copyOutOfRange ∧
    upsample_nearest2d ctx0 n0 ⟨1, ⟨[5]⟩⟩ (some [2, 2]) none none =
      Except.error ConvError.copyOutOfRange ∧
    upsample_nearest3d ctx0 n0 ⟨2, ⟨[5, 5]⟩⟩ (some [2, 2, 2]) none none none =
      Except.error ConvError.copyOutOfRange := by
  refine ⟨?_, ?_, ?_, rfl, rfl, rfl⟩
  · intro ctx n t a1 a2 hpre h
    simp only [toVec] at hpre
    by_cases hr : 4 ≤ t.dims.d.length
    · rw [if_pos hr] at hpre
      rcases up1d_runs_ge4 ctx n t a1 a2 hr with ⟨_, he⟩ | ⟨_, hc⟩
      · rw [he] at h; exact ConvError.noConfusion (Except.error.inj h)
      · rcases hc with ⟨_, he⟩ | ⟨l, _, _, hc2⟩
        · rw [he] at h; exact Except.noConfusion h
        · rcases hc2 with ⟨_, he⟩ | ⟨_, _, he⟩ | ⟨_, he⟩
          · rw [he] at h; exact ConvError.noConfusion (Except.error.inj h)
          · rw [he] at h; exact ConvError.noConfusion (Except.error.inj h)
          · rw [he] at h; exact Except.noConfusion h
    · rw [if_neg hr] at hpre
      rcases up1d_runs_lt4 ctx n t a1 a2 (by omega) with ⟨_, he⟩ | ⟨l, _, _, hc⟩
      · rw [he] at h; exact Except.noConfusion h
      · rcases hc with ⟨_, he⟩ | ⟨_, _, he⟩ | ⟨_, hoob, he⟩ | ⟨_, _, he⟩
        · rw [he] at h; exact ConvError.noConfusion (Except.error.inj h)
        · rw [he] at h; exact ConvError.noConfusion (Except.error.inj h)
        · exact absurd hoob (by omega)
        · rw [he] at h; exact Except.noConfusion h
  · intro ctx n t a1 a2 a3 hpre h
    simp only [toVec] at hpre
    rcases up2d_runs ctx n t a1 a2 a3 with ⟨_, he⟩ | ⟨l, _, _, _, hc⟩
    · rw [he] at h; exact Except.noConfusion h
    · rcases hc with ⟨_, he⟩ | ⟨_, _, he⟩ | ⟨hl, hoob, he⟩ | ⟨_, _, _, he⟩ | ⟨_, _, _, he⟩
      · rw [he] at h; exact ConvError.noConfusion (Except.error.inj h)
      · rw [he] at h; exact ConvError.noConfusion (Except.error.inj h)
      · exact absurd hoob (by omega)
      · rw [he] at h; exact ConvError.noConfusion (Except.error.inj h)
      · rw [he] at h; exact Except.noConfusion h
  · intro ctx n t a1 a2 a3 a4 hpre h
    simp only [toVec] at hpre
    rcases up3d_runs ctx n t a1 a2 a3 a4 with ⟨_, he⟩ | ⟨l, _, _, _, _, hc⟩
    · rw [he] at h; exact Except.noConfusion h
    · rcases hc with ⟨_, he⟩ | ⟨_, _, he⟩ | ⟨hl, hoob, he⟩ | ⟨_, _, _, he⟩ | ⟨_, _, _, he⟩
      · rw [he] at h; exact ConvError.noConfusion (Except.error.inj h)
      · rw [he] at h; exact ConvError.noConfusion (Except.error.inj h)
      · exact absurd hoob (by omega)
      · rw [he] at h; exact ConvError.noConfusion (Except.error.inj h)
      · rw [he] at h; exact Except.noConfusion h

/-- Witness for C10: the in-range clauses instantiated at Scenario A/B/C
    inputs. -/
theorem C10_witness :
    upsample_nearest1d ctx0 n0 ⟨0, ⟨[2, 3, 8]⟩⟩ (some [16]) none ≠
      Except.error ConvError.copyOutOfRange ∧
    upsample_nearest2d ctx0 n0 ⟨0, ⟨[1, 3, 32, 32]⟩⟩ (some [64, 64]) none none ≠
      Except.error ConvError.copyOutOfRange ∧
    upsample_nearest3d ctx0 n0 ⟨0, ⟨[1, 3, 4, 8, 8]⟩⟩ (some [4, 16, 16]) none none none ≠
      Except.error ConvError.copyOutOfRange :=
  ⟨C10_thm.1 ctx0 n0 ⟨0, ⟨[2, 3, 8]⟩⟩ (some [16]) none (by decide),
   C10_thm.2.1 ctx0 n0 ⟨0, ⟨[1, 3, 32, 32]⟩⟩ (some [64, 64]) none none (by decide),
   C10_thm.2.2.1 ctx0 n0 ⟨0, ⟨[1, 3, 4, 8, 8]⟩⟩ (some [4, 16, 16]) none none none
     (by decide)⟩
